import Mathlib

/-!
Shallow embedding of the covlant GitHub-app webhook service.

The JavaScript source is embedded as pure Lean functions.  External
effects (GitHub REST calls, the analysis collaborator HTTP call) are
modelled by an explicit environment of oracles; each function returns its
result together with the list of external calls it issued, in order.
Strings are modelled as Lean strings (sequences of characters); the
handful of JavaScript string primitives the source uses (startsWith,
includes, replace-first, split, parseInt, toLowerCase, substring) are
embedded as executable helper functions over character lists.
-/

namespace Covlant

/-- Embeds JavaScript `pat` being a prefix of `l` (character lists). -/
def listStarts : List Char → List Char → Bool
  | [], _ => true
  | _ :: _, [] => false
  | p :: ps, c :: cs => p == c && listStarts ps cs

/-- Embeds JavaScript `String.prototype.startsWith`. -/
def strStartsWith (s pat : String) : Bool :=
  listStarts pat.data s.data

/-- Finds the first occurrence of `pat` in a character list, returning the
characters before the match and the characters after it. -/
def splitFirst (pat : List Char) : List Char → Option (List Char × List Char)
  | [] => if listStarts pat [] then some ([], []) else none
  | c :: cs =>
    if listStarts pat (c :: cs) then some ([], (c :: cs).drop pat.length)
    else
      match splitFirst pat cs with
      | some (pre, post) => some (c :: pre, post)
      | none => none

/-- Embeds JavaScript `String.prototype.includes`. -/
def strContains (s pat : String) : Bool :=
  (splitFirst pat.data s.data).isSome

/-- Embeds JavaScript `String.prototype.replace` with a plain-string
pattern (replaces the first occurrence only). -/
def jsReplaceFirst (s pat rep : String) : String :=
  match splitFirst pat.data s.data with
  | some (pre, post) => String.mk (pre ++ rep.data ++ post)
  | none => s

/-- Embeds JavaScript `String.prototype.toLowerCase` (ASCII letters). -/
def strToLower (s : String) : String :=
  String.mk (s.data.map Char.toLower)

/-- Embeds JavaScript `parseInt` on the strings this service feeds it:
the longest leading digit run, `none` when there is none (NaN). -/
def jsParseInt (l : List Char) : Option Nat :=
  let digits := l.takeWhile Char.isDigit
  if digits.isEmpty then none
  else some (digits.foldl (fun acc c => acc * 10 + (c.toNat - 48)) 0)

/-- Embeds the regex `github\.com\/([^\/]+)\/([^\/]+)` used by every
`parseGitHubUrl` helper in the source: the text after the first
`github.com/` is split into the owner segment and the repo segment, both
required non-empty runs of non-slash characters. -/
def parseGitHubUrl (url : String) : Option (String × String) :=
  match splitFirst "github.com/".data url.data with
  | none => none
  | some (_, rest) =>
    let owner := rest.takeWhile (fun c => c != '/')
    if owner.isEmpty then none
    else
      match rest.dropWhile (fun c => c != '/') with
      | '/' :: rest2 =>
        let repo := rest2.takeWhile (fun c => c != '/')
        if repo.isEmpty then none else some (String.mk owner, String.mk repo)
      | _ => none

/-- Embeds `prUrl.split($SLASH pull $SLASH)[1]` followed by `parseInt` and
the falsiness check `if (!prNumber) throw ...` in `fetchPRFileChanges`:
`none` means the JavaScript code would have thrown. -/
def prNumberOfUrl (url : String) : Option Nat :=
  match splitFirst "/pull/".data url.data with
  | none => none
  | some (_, post) =>
    match jsParseInt post with
    | none => none
    | some 0 => none
    | some n => some n

/-- Embeds JavaScript `Array.prototype.join(sep)`. -/
def joinSep (sep : String) : List String → String
  | [] => ""
  | [s] => s
  | s :: rest => s ++ sep ++ joinSep sep rest

/-- Embeds `path.split(".").pop()`: the last dot-separated segment. -/
def lastDotSegment (s : String) : String :=
  String.mk ((s.data.reverse.takeWhile (fun c => c != '.')).reverse)

/-- A changed file of the triggering pull request, as mapped by
`fetchPRFileChanges` from the GitHub list-files response. -/
structure ChangedFile where
  filename : String
  status : String
  additions : Nat
  deletions : Nat
  changes : Nat
  patch : String
  blob_url : String
  raw_url : String
  deriving Repr, DecidableEq

/-- One entry of `filesToCreate` in the analysis-collaborator response. -/
structure Artifact where
  path : String
  content : String
  type : String
  fileExists : Bool
  deriving Repr, DecidableEq

/-- The analysis-collaborator response body.  A missing `filesToCreate`
field in JavaScript behaves exactly like an empty list downstream, so it
is modelled as the empty list. -/
structure AnalysisResponse where
  analysisId : String
  filesToCreate : List Artifact
  timestamp : String
  deriving Repr, DecidableEq

/-- The `prData` record assembled by `processCreatePR` and consumed by
`GitService.processPRAndCreateAnalysis`. -/
structure PrData where
  number : Nat
  title : String
  url : String
  author : String
  repository : String
  createdAt : String
  baseBranch : String
  headBranch : String
  deriving Repr, DecidableEq

/-- The record returned by `getPRDetails`. -/
structure PrDetails where
  owner : String
  repo : String
  commitSha : String
  baseBranch : String
  headBranch : String
  deriving Repr, DecidableEq

/-- The fields of `octokit.pulls.get` the service reads. -/
structure PullData where
  headSha : String
  baseRef : String
  headRef : String
  deriving Repr, DecidableEq

/-- The fields of the `octokit.pulls.create` response the service reads. -/
structure CreatedPR where
  number : Nat
  htmlUrl : String
  draft : Bool
  deriving Repr, DecidableEq

/-- Errors of external calls.  `notFound` is an HTTP 404 (the only status
code the source inspects); every other failure carries its message. -/
inductive ApiErr where
  | notFound
  | other (msg : String)
  deriving Repr, DecidableEq

/-- Embeds `error.message` for a modelled error. -/
def errMessage : ApiErr → String
  | .notFound => "Not Found"
  | .other m => m

/-- One external (GitHub REST or collaborator) call, with the request
fields the source actually sends. -/
inductive ApiCall where
  | listFiles (owner repo : String) (prNumber : Nat)
  | getPR (owner repo : String) (prNumber : Nat)
  | analysisAPI
  | getRef (owner repo branch : String)
  | createRef (owner repo newBranchName sha : String)
  | getContent (owner repo path branch : String)
  | commitFile (owner repo path : String) (sha : Option String) (message branch : String)
  | createPR (owner repo head base title body : String) (draft : Bool)
  | createComment (owner repo : String) (issueNumber : Nat) (body : String)
  | updateComment (owner repo : String) (commentId : Nat) (body : String)
  | createCommitStatus (owner repo sha state description context : String)
      (targetUrl : Option String)
  deriving Repr, DecidableEq

/-- Oracles giving the outcome of every external call the webhook service
can make, plus the ambient clock and configuration flags. -/
structure Env where
  hasAppId : Bool
  nowMillis : Nat
  nowISO : String
  listFilesResult : Except ApiErr (List ChangedFile)
  pullGet : Except ApiErr PullData
  analysisResult : Except ApiErr AnalysisResponse
  baseRefSha : String → Except ApiErr String
  createRefResult : Except ApiErr Unit
  contentSha : String → Except ApiErr String
  commitResult : String → Except ApiErr Unit
  createPRResult : Except ApiErr CreatedPR
  createCommentResult : Except ApiErr Unit
  updateCommentResult : Except ApiErr Unit
  statusResult : Except ApiErr Unit

/-- Response of the webhook route handler.  The JavaScript handlers
return plain objects; keys absent from a given return site are modelled
by the stated defaults (`skipped` absent means falsy). -/
structure WebhookResponse where
  success : Bool
  message : String
  skipped : Bool := false
  choice : Option String := none
  deriving Repr, DecidableEq

/-- Embeds `GitService.callAnalysisAPI`: POSTs the changed files to the
analysis collaborator; a non-ok response or fetch failure is thrown. -/
def callAnalysisAPI (env : Env) (_changedFiles : List ChangedFile) :
    Except ApiErr AnalysisResponse × List ApiCall :=
  (env.analysisResult, [.analysisAPI])

/-- Embeds `GitService.createRemoteBranch`: parses owner and repo from the
repository URL, reads the SHA of the base branch head and creates the new
ref from it.  Returns `(owner, repo, baseSha)` on success. -/
def createRemoteBranch (env : Env) (repoUrl baseBranch newBranchName : String) :
    Except ApiErr (String × String × String) × List ApiCall :=
  match parseGitHubUrl repoUrl with
  | none => (.error (.other "Invalid GitHub URL"), [])
  | some (owner, repo) =>
    match env.baseRefSha baseBranch with
    | .error e => (.error e, [.getRef owner repo baseBranch])
    | .ok sha =>
      match env.createRefResult with
      | .error e => (.error e, [.getRef owner repo baseBranch, .createRef owner repo newBranchName sha])
      | .ok _ => (.ok (owner, repo, sha), [.getRef owner repo baseBranch, .createRef owner repo newBranchName sha])

/-- Embeds `GitService.getFileSHA`: reads the content SHA of `path` on
`branch`; a 404 yields `none`, any other failure is rethrown. -/
def getFileSHA (env : Env) (owner repo path branch : String) :
    Except ApiErr (Option String) × List ApiCall :=
  match env.contentSha path with
  | .ok sha => (.ok (some sha), [.getContent owner repo path branch])
  | .error .notFound => (.ok none, [.getContent owner repo path branch])
  | .error e => (.error e, [.getContent owner repo path branch])

/-- The commit message chosen per artifact by
`GitService.createFilesFromAPIResponse`. -/
def commitMessage (verb ftype : String) (prNumber : Nat) : String :=
  verb ++ " " ++ ftype ++ " file for PR #" ++ toString prNumber ++ " analysis"

/-- Embeds the per-artifact loop of
`GitService.createFilesFromAPIResponse` (source parameters
`(owner, repo, branchName, apiResponse, prData)`; the loop runs over
`apiResponse.filesToCreate` and reads `prData.number`).  When an artifact
claims `fileExists` its SHA is looked up first; a `some` SHA selects
update semantics, a `none` (404) falls back to create semantics.  Any
error aborts the loop and is rethrown; on success the created paths are
returned in order. -/
def createFilesFromAPIResponse (env : Env) (owner repo branchName : String) (prNumber : Nat) :
    List Artifact → Except ApiErr (List String) × List ApiCall
  | [] => (.ok [], [])
  | fileData :: rest =>
    if fileData.fileExists then
      match getFileSHA env owner repo fileData.path branchName with
      | (.error e, t1) => (.error e, t1)
      | (.ok shaOpt, t1) =>
        let message := match shaOpt with
          | some _ => commitMessage "Update" fileData.type prNumber
          | none => commitMessage "Add" fileData.type prNumber
        match env.commitResult fileData.path with
        | .error e => (.error e, t1 ++ [.commitFile owner repo fileData.path shaOpt message branchName])
        | .ok _ =>
          let (restRes, t2) := createFilesFromAPIResponse env owner repo branchName prNumber rest
          (restRes.map (fileData.path :: ·),
           t1 ++ [.commitFile owner repo fileData.path shaOpt message branchName] ++ t2)
    else
      let message := commitMessage "Add" fileData.type prNumber
      match env.commitResult fileData.path with
      | .error e => (.error e, [.commitFile owner repo fileData.path none message branchName])
      | .ok _ =>
        let (restRes, t2) := createFilesFromAPIResponse env owner repo branchName prNumber rest
        (restRes.map (fileData.path :: ·),
         [.commitFile owner repo fileData.path none message branchName] ++ t2)

/-- The title built by `GitService.createPullRequest`. -/
def analysisPRTitle (prData : PrData) : String :=
  "Auto-generated Covlant-app analysis for PR #" ++ toString prData.number ++ ": " ++ prData.title

/-- The body built by `GitService.createPullRequest`. -/
def analysisPRBody (env : Env) (prData : PrData) (newBranchName baseBranch : String) (isDraft : Bool) : String :=
  "## Automated PR Analysis " ++ (if isDraft then "(Draft)" else "") ++
  "\n\nThis PR was automatically generated in response to PR #" ++ toString prData.number ++
  ".\n\n### Original PR Details\n- **Base Branch**: " ++ baseBranch ++
  "\n- **Head Branch**: " ++ newBranchName ++
  "\n\n---\n*Auto-generated by fastify-github-webhook at " ++ env.nowISO ++ "*"

/-- Embeds `GitService.createPullRequest`: opens a pull request with head
`newBranchName`, base `baseBranch` and the draft flag, with title and
body referencing the original PR. -/
def createPullRequest (env : Env) (owner repo newBranchName baseBranch : String)
    (prData : PrData) (isDraft : Bool) : Except ApiErr CreatedPR × List ApiCall :=
  let title := analysisPRTitle prData
  let body := analysisPRBody env prData newBranchName baseBranch isDraft
  match env.createPRResult with
  | .error e => (.error e, [.createPR owner repo newBranchName baseBranch title body isDraft])
  | .ok pr => (.ok pr, [.createPR owner repo newBranchName baseBranch title body isDraft])

/-- The summary of a created analysis PR inside a workflow result
(`analysisResult.newPR` in the source). -/
structure NewPRInfo where
  number : Nat
  url : String
  branch : String
  isDraft : Bool
  deriving Repr, DecidableEq

/-- The object returned by `GitService.processPRAndCreateAnalysis`
(`skipped` and `reason` are absent on the non-skip path, `newPR` and
`createdFiles` are absent on the skip path). -/
structure AnalysisWorkflowResult where
  success : Bool
  skipped : Bool := false
  reason : Option String := none
  newPR : Option NewPRInfo := none
  createdFiles : List String := []
  analysisId : String
  filesCount : Nat
  deriving Repr, DecidableEq

/-- Embeds `GitService.processPRAndCreateAnalysis`: guards against
auto-generated head branches, calls the analysis collaborator, skips when
it returns no artifacts, and otherwise creates the branch, commits the
artifacts and opens the draft PR. -/
def processPRAndCreateAnalysis (env : Env) (prData : PrData) (fileChanges : List ChangedFile) :
    Except ApiErr AnalysisWorkflowResult × List ApiCall :=
  if strStartsWith prData.headBranch "auto-analysis-pr-" then
    (.error (.other "Attempted to process auto-generated PR - this should have been caught earlier!"), [])
  else
    match callAnalysisAPI env fileChanges with
    | (.error e, t0) => (.error e, t0)
    | (.ok apiResponse, t0) =>
      if apiResponse.filesToCreate.isEmpty then
        (.ok { success := true, skipped := true, reason := some "No files to create",
               analysisId := apiResponse.analysisId, filesCount := 0 }, t0)
      else
        let newBranchName := "auto-analysis-pr-" ++ toString prData.number ++ "-" ++ toString env.nowMillis
        match createRemoteBranch env prData.url prData.headBranch newBranchName with
        | (.error e, t1) => (.error e, t0 ++ t1)
        | (.ok (owner, repo, _), t1) =>
          match createFilesFromAPIResponse env owner repo newBranchName prData.number apiResponse.filesToCreate with
          | (.error e, t2) => (.error e, t0 ++ t1 ++ t2)
          | (.ok createdFiles, t2) =>
            match createPullRequest env owner repo newBranchName prData.headBranch prData true with
            | (.error e, t3) => (.error e, t0 ++ t1 ++ t2 ++ t3)
            | (.ok newPR, t3) =>
              (.ok { success := true,
                     newPR := some { number := newPR.number, url := newPR.htmlUrl,
                                     branch := newBranchName, isDraft := newPR.draft },
                     createdFiles := createdFiles,
                     analysisId := apiResponse.analysisId,
                     filesCount := apiResponse.filesToCreate.length },
               t0 ++ t1 ++ t2 ++ t3)

/-- Embeds the description truncation in `GitHubStatusService.setStatus`:
descriptions over 140 characters are cut to `substring(0, 137)` plus an
ellipsis. -/
def truncateDescription (description : String) : String :=
  if description.length > 140 then String.mk (description.data.take 137) ++ "..." else description

/-- Embeds `GitHubStatusService.setStatus`: validates the SHA and state
locally, truncates the description, and submits one commit status.  The
optional target URL is attached only when present (JavaScript truthiness
on `targetUrl`). -/
def setStatus (env : Env) (repoUrl sha state description context : String)
    (targetUrl : Option String) : Except ApiErr Unit × List ApiCall :=
  match parseGitHubUrl repoUrl with
  | none => (.error (.other "Invalid GitHub URL"), [])
  | some (owner, repo) =>
    if sha.length < 7 then (.error (.other "Invalid commit SHA"), [])
    else if !(["pending", "success", "error", "failure"].contains state) then
      (.error (.other ("Invalid state: " ++ state)), [])
    else
      let d := truncateDescription description
      match env.statusResult with
      | .error e => (.error e, [.createCommitStatus owner repo sha state d context targetUrl])
      | .ok _ => (.ok (), [.createCommitStatus owner repo sha state d context targetUrl])

/-- Embeds `GitHubStatusService.setProcessing`. -/
def setProcessing (env : Env) (repoUrl sha : String) (prNumber : Nat) :
    Except ApiErr Unit × List ApiCall :=
  setStatus env repoUrl sha "pending" ("covlant-app analyzing PR #" ++ toString prNumber)
    "covlant-sentinel-app" none

/-- Embeds `GitHubStatusService.setComplete`. -/
def setComplete (env : Env) (repoUrl sha : String) (prNumber : Nat)
    (analysisPRUrl : Option String) : Except ApiErr Unit × List ApiCall :=
  setStatus env repoUrl sha "success" ("covlant-app analysis complete for PR #" ++ toString prNumber)
    "covlant-sentinel-app" analysisPRUrl

/-- Embeds `GitHubStatusService.setSkipped` (defined in the source but
never invoked by any handler). -/
def setSkipped (env : Env) (repoUrl sha : String) (_prNumber : Nat) (reason : String) :
    Except ApiErr Unit × List ApiCall :=
  setStatus env repoUrl sha "success" ("covlant-app skipped: " ++ reason) "covlant-sentinel-app" none

/-- Embeds `GitHubStatusService.setError` (its own 80-character pre-cut
of the raw error text, then the shared `setStatus` path). -/
def setError (env : Env) (repoUrl sha : String) (_prNumber : Nat) (error : String) :
    Except ApiErr Unit × List ApiCall :=
  let truncatedError :=
    if error.length > 80 then String.mk (error.data.take 80) ++ "..." else error
  setStatus env repoUrl sha "error" ("covlant-app failed: " ++ truncatedError) "covlant-sentinel-app" none

/-- Embeds `createPRComment` of the webhook plugin. -/
def createPRComment (env : Env) (prUrl : String) (prNumber : Nat) (commentBody : String) :
    Except ApiErr Unit × List ApiCall :=
  match parseGitHubUrl prUrl with
  | none => (.error (.other "Invalid GitHub URL"), [])
  | some (owner, repo) =>
    match env.createCommentResult with
    | .error e => (.error e, [.createComment owner repo prNumber commentBody])
    | .ok _ => (.ok (), [.createComment owner repo prNumber commentBody])

/-- Embeds `updateComment` of the webhook plugin. -/
def updateComment (env : Env) (prUrl : String) (commentId : Nat) (commentBody : String) :
    Except ApiErr Unit × List ApiCall :=
  match parseGitHubUrl prUrl with
  | none => (.error (.other "Invalid GitHub URL"), [])
  | some (owner, repo) =>
    match env.updateCommentResult with
    | .error e => (.error e, [.updateComment owner repo commentId commentBody])
    | .ok _ => (.ok (), [.updateComment owner repo commentId commentBody])

/-- The numbered file list shared by the comment templates. -/
def filesListText (fileChanges : List ChangedFile) : String :=
  joinSep "\n" (fileChanges.enum.map (fun p =>
    toString (p.1 + 1) ++ ". **" ++ p.2.filename ++ "** (" ++ p.2.status ++ ") - +" ++
    toString p.2.additions ++ " -" ++ toString p.2.deletions))

/-- Embeds `createInitialComment`. -/
def createInitialComment (fileChanges : List ChangedFile) : String :=
  "## 🔍 Files Changed in this PR\n\nHi! I\x27ve detected **" ++ toString fileChanges.length ++
  " changed files** in this PR:\n\n" ++ filesListText fileChanges ++
  "\n\n### Choose Analysis Option:\n\n- [ ] **Analyze and create new PR** - Create a separate PR with analysis files\n- [ ] **Analyze and add to comments** - Add analysis results as comments on this PR\n\n**Instructions:** Check one of the boxes above to proceed with analysis.\n\n---\n*🤖 Automated by Covlant App*"

/-- Embeds `createProcessingComment`. -/
def createProcessingComment (choice : String) : String :=
  "## 🔍 Files Changed in this PR\n\n**Status:** 🔄 **UT is being generated...** \n\nPlease wait while I " ++
  (if choice == "create_pr" then "create analysis PR" else "add analysis comments") ++
  ".\n\n---\n*🤖 Automated by Covlant App*"

/-- Embeds the `${result}` interpolation of `createCompletedComment`
(JavaScript renders a null result as the text `null`). -/
def optText : Option String → String
  | some s => s
  | none => "null"

/-- Embeds `createCompletedComment`. -/
def createCompletedComment (fileChanges : List ChangedFile) (choice : String)
    (result : Option String) : String :=
  let selectedAction := if choice == "create_pr" then "**Analyze and create new PR**"
    else "**Analyze and add to comments**"
  let completionMessage := if choice == "create_pr" then
      "Analysis PR created successfully! [View Analysis PR](" ++ optText result ++ ")"
    else "Analysis results added as comments above successfully!"
  "## ✅ Processing Complete\n\n**Your Selection:** " ++ selectedAction ++
  "\n\n**Files Analyzed:** " ++ toString fileChanges.length ++ " changed files in this PR:\n\n" ++
  filesListText fileChanges ++ "\n\n**Result:** " ++ completionMessage ++
  "\n\n---\n*🤖 Automated by Covlant App*"

/-- Embeds `createErrorComment`. -/
def createErrorComment (fileChanges : List ChangedFile) (errorMessage : String) : String :=
  "## ❌ Processing Failed\n\n**Files Analyzed:** " ++ toString fileChanges.length ++
  " changed files in this PR:\n\n" ++ filesListText fileChanges ++
  "\n\n**Error:** " ++ errorMessage ++ "\n\n---\n*🤖 Automated by Covlant App*"

/-- Embeds `fetchPRFileChanges` of the webhook plugin: parses the PR URL,
lists the changed files and maps them.  The whole body sits in a
try/catch whose handler logs and returns an empty list, so every failure
(bad URL, missing PR number, API error) yields `[]` instead of
propagating. -/
def fetchPRFileChanges (env : Env) (prUrl : String) : List ChangedFile × List ApiCall :=
  match parseGitHubUrl prUrl with
  | none => ([], [])
  | some (owner, repo) =>
    match prNumberOfUrl prUrl with
    | none => ([], [])
    | some prNumber =>
      match env.listFilesResult with
      | .ok files => (files, [.listFiles owner repo prNumber])
      | .error _ => ([], [.listFiles owner repo prNumber])

/-- Embeds `getPRDetails` of the webhook plugin. -/
def getPRDetails (env : Env) (prUrl : String) (prNumber : Nat) :
    Except ApiErr PrDetails × List ApiCall :=
  match parseGitHubUrl prUrl with
  | none => (.error (.other "Invalid GitHub URL"), [])
  | some (owner, repo) =>
    match env.pullGet with
    | .error e => (.error e, [.getPR owner repo prNumber])
    | .ok pd =>
      (.ok { owner := owner, repo := repo, commitSha := pd.headSha,
             baseBranch := pd.baseRef, headBranch := pd.headRef }, [.getPR owner repo prNumber])

/-- Embeds `detectCheckboxChoice`: both boxes checked or neither checked
yields `none`; otherwise the single checked option. -/
def detectCheckboxChoice (commentBody : String) : Option String :=
  let createPRSelected := strContains commentBody "- [x] **Analyze and create new PR**"
  let addCommentsSelected := strContains commentBody "- [x] **Analyze and add to comments**"
  if createPRSelected && addCommentsSelected then none
  else if createPRSelected then some "create_pr"
  else if addCommentsSelected then some "add_comments"
  else none

/-- The `issueData` argument `handleCommentEdited` passes to
`processCreatePR` (issue title, user login, repository full name and
creation time). -/
structure IssueInput where
  title : String
  userLogin : String
  repoFullName : String
  createdAt : String
  deriving Repr, DecidableEq

/-- Embeds `processCreatePR` of the webhook plugin: assembles `prData`,
runs the analysis workflow, then reports completion on the commit status
with the new PR URL (absent when the workflow skipped). -/
def processCreatePR (env : Env) (prUrl : String) (prNumber : Nat)
    (fileChanges : List ChangedFile) (prDetails : PrDetails) (issueData : IssueInput) :
    Except ApiErr (Option String) × List ApiCall :=
  let prData : PrData :=
    { number := prNumber, title := issueData.title, url := prUrl,
      author := issueData.userLogin, repository := issueData.repoFullName,
      createdAt := issueData.createdAt,
      baseBranch := prDetails.baseBranch, headBranch := prDetails.headBranch }
  match processPRAndCreateAnalysis env prData fileChanges with
  | (.error e, t1) => (.error e, t1)
  | (.ok analysisResult, t1) =>
    let newUrl := analysisResult.newPR.map (·.url)
    match setComplete env prUrl prDetails.commitSha prNumber newUrl with
    | (.error e, t2) => (.error e, t1 ++ t2)
    | (.ok _, t2) => (.ok newUrl, t1 ++ t2)

/-- The per-artifact comment body of `processAddComments`. -/
def analysisFileComment (file : Artifact) : String :=
  "## 📁 Analysis Result: `" ++ file.path ++ "`\n\n**File Type:** " ++ file.type ++
  "\n**Status:** " ++ (if file.fileExists then "Update existing file" else "Create new file") ++
  "\n\n### Content:\n```" ++ lastDotSegment file.path ++ "\n" ++ file.content ++
  "\n```\n\n---\n*Generated by Covlant Analysis*"

/-- The summary comment body of `processAddComments`. -/
def analysisSummaryComment (files : List Artifact) : String :=
  "## ✅ Analysis Complete\n\nAdded **" ++ toString files.length ++
  " analysis files** as comments above.\n\n**Files generated:**\n" ++
  joinSep "\n" (files.map (fun f => "- `" ++ f.path ++ "` (" ++ f.type ++ ")")) ++
  "\n\n*Note: Analysis results added as comments only - no additional PR was created.*"

/-- The per-artifact comment loop of `processAddComments`; a failing
comment creation aborts the loop and is rethrown. -/
def postFileComments (env : Env) (prUrl : String) (prNumber : Nat) :
    List Artifact → Except ApiErr Unit × List ApiCall
  | [] => (.ok (), [])
  | file :: rest =>
    match createPRComment env prUrl prNumber (analysisFileComment file) with
    | (.error e, t1) => (.error e, t1)
    | (.ok _, t1) =>
      let (restRes, t2) := postFileComments env prUrl prNumber rest
      (restRes, t1 ++ t2)

/-- Embeds `processAddComments` of the webhook plugin: calls the
analysis collaborator, posts one comment per artifact plus a summary (or
a no-results comment), then reports completion on the commit status. -/
def processAddComments (env : Env) (prUrl : String) (prNumber : Nat)
    (fileChanges : List ChangedFile) (commitSha : String) :
    Except ApiErr Unit × List ApiCall :=
  match parseGitHubUrl prUrl with
  | none => (.error (.other "Invalid GitHub URL"), [])
  | some _ =>
    match callAnalysisAPI env fileChanges with
    | (.error e, t0) => (.error e, t0)
    | (.ok apiResponse, t0) =>
      if !apiResponse.filesToCreate.isEmpty then
        match postFileComments env prUrl prNumber apiResponse.filesToCreate with
        | (.error e, t1) => (.error e, t0 ++ t1)
        | (.ok _, t1) =>
          match createPRComment env prUrl prNumber (analysisSummaryComment apiResponse.filesToCreate) with
          | (.error e, t2) => (.error e, t0 ++ t1 ++ t2)
          | (.ok _, t2) =>
            match setComplete env prUrl commitSha prNumber none with
            | (.error e, t3) => (.error e, t0 ++ t1 ++ t2 ++ t3)
            | (.ok _, t3) => (.ok (), t0 ++ t1 ++ t2 ++ t3)
      else
        match createPRComment env prUrl prNumber "## 📝 Analysis Results\n\nNo analysis files were generated for this PR." with
        | (.error e, t1) => (.error e, t0 ++ t1)
        | (.ok _, t1) =>
          match setComplete env prUrl commitSha prNumber none with
          | (.error e, t2) => (.error e, t0 ++ t1 ++ t2)
          | (.ok _, t2) => (.ok (), t0 ++ t1 ++ t2)

/-- The `pull_request` payload fields the handlers read. -/
structure PrEvent where
  number : Nat
  title : String
  htmlUrl : String
  headRef : String
  baseRef : String
  createdAt : String
  draft : Bool
  deriving Repr, DecidableEq

/-- The `comment` payload fields the handlers read. -/
structure CommentData where
  id : Nat
  body : String
  deriving Repr, DecidableEq

/-- The `issue` payload fields the handlers read. -/
structure IssueData where
  number : Nat
  title : String
  htmlUrl : String
  userLogin : String
  createdAt : String
  hasPullRequest : Bool
  deriving Repr, DecidableEq

/-- The `repository` payload fields the handlers read. -/
structure RepoData where
  fullName : String
  deriving Repr, DecidableEq

/-- The `sender` payload fields the handlers read. -/
structure SenderData where
  login : String
  deriving Repr, DecidableEq

/-- Embeds `handlePRCreated`: fetches the changed files and, when the app
is configured and files exist, posts the initial options comment (a
failure there is caught and only logged). -/
def handlePRCreated (env : Env) (pr : PrEvent) (_repo : RepoData) (_sender : SenderData) :
    WebhookResponse × List ApiCall :=
  let (fileChanges, t1) := fetchPRFileChanges env pr.htmlUrl
  let t2 :=
    if env.hasAppId && !fileChanges.isEmpty then
      (createPRComment env pr.htmlUrl pr.number (createInitialComment fileChanges)).2
    else []
  ({ success := true, message := "Pull request details captured with file changes" }, t1 ++ t2)

/-- The uniform return value of `handleCommentEdited` after its try/catch
block. -/
def commentProcessedResponse (choice : String) : WebhookResponse :=
  { success := true, message := "Comment processed", choice := some choice }

/-- Embeds the catch-block of `handleCommentEdited`: sets the error
status and rewrites the comment, swallowing any failure of the recovery
itself.  Only the calls issued matter (its results are discarded). -/
def commentEditedRecovery (env : Env) (comment : CommentData) (issue : IssueData)
    (errMsg : String) : List ApiCall :=
  let prUrl := jsReplaceFirst issue.htmlUrl "/issues/" "/pull/"
  match getPRDetails env prUrl issue.number with
  | (.error _, t1) => t1
  | (.ok prDetails, t1) =>
    match setError env prUrl prDetails.commitSha issue.number errMsg with
    | (.error _, t2) => t1 ++ t2
    | (.ok _, t2) =>
      let (fileChanges, t3) := fetchPRFileChanges env prUrl
      let (_, t4) := updateComment env prUrl comment.id (createErrorComment fileChanges errMsg)
      t1 ++ t2 ++ t3 ++ t4

/-- Embeds `handleCommentEdited`: detects the checkbox choice (returning
immediately when there is none), switches the comment to the processing
placeholder, reports a pending status, fetches the changed files, runs
the selected mode, and rewrites the comment with the completion message;
any failure runs the recovery path instead.  Either way the handler
resolves with the same acknowledgment object. -/
def handleCommentEdited (env : Env) (comment : CommentData) (issue : IssueData)
    (repo : RepoData) : WebhookResponse × List ApiCall :=
  match detectCheckboxChoice comment.body with
  | none => ({ success := true, message := "No valid choice detected", choice := some "none" }, [])
  | some choice =>
    let prUrl := jsReplaceFirst issue.htmlUrl "/issues/" "/pull/"
    match updateComment env prUrl comment.id (createProcessingComment choice) with
    | (.error e, t1) =>
      (commentProcessedResponse choice, t1 ++ commentEditedRecovery env comment issue (errMessage e))
    | (.ok _, t1) =>
      match getPRDetails env prUrl issue.number with
      | (.error e, t2) =>
        (commentProcessedResponse choice, t1 ++ t2 ++ commentEditedRecovery env comment issue (errMessage e))
      | (.ok prDetails, t2) =>
        match setProcessing env prUrl prDetails.commitSha issue.number with
        | (.error e, t3) =>
          (commentProcessedResponse choice, t1 ++ t2 ++ t3 ++ commentEditedRecovery env comment issue (errMessage e))
        | (.ok _, t3) =>
          let (fileChanges, t4) := fetchPRFileChanges env prUrl
          let step : Except ApiErr (Option String) × List ApiCall :=
            if choice == "create_pr" then
              processCreatePR env prUrl issue.number fileChanges prDetails
                { title := issue.title, userLogin := issue.userLogin,
                  repoFullName := repo.fullName, createdAt := issue.createdAt }
            else if choice == "add_comments" then
              match processAddComments env prUrl issue.number fileChanges prDetails.commitSha with
              | (.error e, t) => (.error e, t)
              | (.ok _, t) => (.ok none, t)
            else (.ok none, [])
          match step with
          | (.error e, t5) =>
            (commentProcessedResponse choice,
             t1 ++ t2 ++ t3 ++ t4 ++ t5 ++ commentEditedRecovery env comment issue (errMessage e))
          | (.ok result, t5) =>
            match updateComment env prUrl comment.id (createCompletedComment fileChanges choice result) with
            | (.error e, t6) =>
              (commentProcessedResponse choice,
               t1 ++ t2 ++ t3 ++ t4 ++ t5 ++ t6 ++ commentEditedRecovery env comment issue (errMessage e))
            | (.ok _, t6) =>
              (commentProcessedResponse choice, t1 ++ t2 ++ t3 ++ t4 ++ t5 ++ t6)

/-- One inbound webhook delivery: the `X-GitHub-Event` header, the
payload `action` and the payload objects the handlers read. -/
structure WebhookRequest where
  eventType : String
  action : String
  pr : PrEvent
  comment : CommentData
  issue : IssueData
  repo : RepoData
  sender : SenderData
  deriving Repr, DecidableEq

/-- Embeds the `POST /` route of `githubWebhookPlugin`: dispatches on the
event type and action, short-circuiting PR-opened events whose head
branch carries the auto-generated prefix before any other work. -/
def webhookPost (env : Env) (req : WebhookRequest) : WebhookResponse × List ApiCall :=
  if req.eventType == "pull_request" && req.action == "opened" then
    if strStartsWith req.pr.headRef "auto-analysis-pr-" then
      ({ success := true, message := "Auto-generated PR skipped to prevent loop", skipped := true }, [])
    else
      handlePRCreated env req.pr req.repo req.sender
  else if req.eventType == "issue_comment" && req.action == "edited" && req.issue.hasPullRequest then
    handleCommentEdited env req.comment req.issue req.repo
  else
    ({ success := true, message := "Webhook processed successfully" }, [])

/-- One cached installation token (`\x7btoken, expiresAt\x7d` in the
source). -/
structure TokenCacheEntry where
  token : String
  expiresAt : Nat
  deriving Repr, DecidableEq

/-- One GitHub App installation as the resolver reads it. -/
structure Installation where
  id : Nat
  accountLogin : String
  deriving Repr, DecidableEq

/-- The mutable fields of `GitHubAuthService` (per-repository variant):
the repo-keyed token cache, the repo-to-installation mapping and the
optional preconfigured installation id.  The JavaScript `Map`s are
modelled as association lists where an insert prepends, so `List.lookup`
returns the latest binding. -/
structure AuthState where
  tokenCache : List (String × TokenCacheEntry)
  repoInstallationCache : List (String × Nat)
  installationId : Option Nat
  deriving Repr, DecidableEq

/-- External calls of the authentication layer. -/
inductive AuthCall where
  | listInstallations
  | mintToken (installationId : Nat)
  | probeRepo (installationId : Nat) (owner repo : String)
  deriving Repr, DecidableEq

/-- Oracles of the authentication layer: the clock, the installation
list, token minting (returning the token text and its expiry epoch), the
temporary probe token mint and the repository access probe. -/
structure AuthEnv where
  now : Nat
  installations : Except ApiErr (List Installation)
  mint : Nat → Except ApiErr (String × Nat)
  probeMint : Nat → Except ApiErr String
  repoAccess : Nat → String → String → Bool

/-- `TOKEN_EXPIRY_BUFFER = 5 * 60 * 1000` milliseconds. -/
def TOKEN_EXPIRY_BUFFER : Nat := 5 * 60 * 1000

/-- Embeds `getInstallations` of the per-repository auth service (this
variant has no installations cache): lists all app installations. -/
def getInstallations (env : AuthEnv) : Except ApiErr (List Installation) × List AuthCall :=
  match env.installations with
  | .error e => (.error (.other ("Failed to get app installations: " ++ errMessage e)), [.listInstallations])
  | .ok insts => (.ok insts, [.listInstallations])

/-- The repo key `owner.toLowerCase()/repo.toLowerCase()` used by the
installation mapping cache. -/
def repoKey (owner repo : String) : String :=
  strToLower owner ++ "/" ++ strToLower repo

/-- The error text thrown when no installation resolves a repository. -/
def noInstallationMsg (owner repo : String) : String :=
  "No installation found for repository " ++ owner ++ "/" ++ repo ++
    ". Make sure the GitHub App is installed on this repository."

/-- The combined access probe for one installation: minting the
temporary installation token and reading the target repository with it
both have to succeed. -/
def probeSucceeds (env : AuthEnv) (inst : Installation) (owner repo : String) : Bool :=
  match env.probeMint inst.id with
  | .ok _ => env.repoAccess inst.id owner repo
  | .error _ => false

/-- The iteration of `findInstallationForRepo` over the installation
list: an installation whose account login matches the owner
case-insensitively is probed (a temporary token is minted, then the
repository is read); the first successful probe wins and its mapping is
cached.  A failed mint or failed probe logs and continues. -/
def findInstallLoop (env : AuthEnv) (owner repo : String) (st : AuthState) :
    List Installation → Except ApiErr Nat × AuthState × List AuthCall
  | [] => (.error (.other (noInstallationMsg owner repo)), st, [])
  | inst :: rest =>
    if strToLower inst.accountLogin == strToLower owner then
      match env.probeMint inst.id with
      | .error _ =>
        let (r, st2, t) := findInstallLoop env owner repo st rest
        (r, st2, .mintToken inst.id :: t)
      | .ok _ =>
        if env.repoAccess inst.id owner repo then
          (.ok inst.id,
           { st with repoInstallationCache := (repoKey owner repo, inst.id) :: st.repoInstallationCache },
           [.mintToken inst.id, .probeRepo inst.id owner repo])
        else
          let (r, st2, t) := findInstallLoop env owner repo st rest
          (r, st2, .mintToken inst.id :: .probeRepo inst.id owner repo :: t)
    else
      findInstallLoop env owner repo st rest

/-- Embeds `findInstallationForRepo` of the per-repository auth service:
lists the installations and runs the matching/probing loop. -/
def findInstallationForRepo (env : AuthEnv) (st : AuthState) (owner repo : String) :
    Except ApiErr Nat × AuthState × List AuthCall :=
  match getInstallations env with
  | (.error e, t0) => (.error e, st, t0)
  | (.ok insts, t0) =>
    let (r, st2, t) := findInstallLoop env owner repo st insts
    (r, st2, t0 ++ t)

/-- Embeds `autoDetectInstallationId` of the per-repository auth service:
with a repository, use the cached mapping or resolve and cache it;
without one, use the preconfigured id or fall back to the first
installation. -/
def autoDetectInstallationId (env : AuthEnv) (st : AuthState) (owner repo : Option String) :
    Except ApiErr Nat × AuthState × List AuthCall :=
  match owner, repo with
  | some o, some r =>
    match List.lookup (repoKey o r) st.repoInstallationCache with
    | some cachedId => (.ok cachedId, st, [])
    | none => findInstallationForRepo env st o r
  | _, _ =>
    match st.installationId with
    | some iid => (.ok iid, st, [])
    | none =>
      match getInstallations env with
      | (.error e, t0) => (.error e, st, t0)
      | (.ok [], t0) =>
        (.error (.other "❌ No GitHub App installations found. Please install the app on at least one repository."), st, t0)
      | (.ok (inst :: _), t0) =>
        (.ok inst.id, { st with installationId := some inst.id }, t0)

/-- The token-cache key `token/owner/repo` (owner and repo lowercased). -/
def tokenCacheKey (owner repo : String) : String :=
  "token/" ++ strToLower owner ++ "/" ++ strToLower repo

/-- Embeds `getInstallationToken` of the per-repository auth service: the
owner and repo are extracted (lowercased) from the GitHub URL; a cached
token under `token/owner/repo` is returned as long as it expires more
than the five-minute buffer from now; otherwise the installation id is
resolved if needed, a fresh token is minted, cached under the same key
when one exists, and returned. -/
def getInstallationToken (env : AuthEnv) (st : AuthState) (installationId : Option Nat)
    (githubUrl : Option String) : Except ApiErr String × AuthState × List AuthCall :=
  let ownerRepo := (githubUrl.bind parseGitHubUrl).map (fun p => (strToLower p.1, strToLower p.2))
  let cacheKey := ownerRepo.map (fun p => "token/" ++ p.1 ++ "/" ++ p.2)
  let cacheHit : Option String :=
    match cacheKey with
    | none => none
    | some key =>
      match List.lookup key st.tokenCache with
      | none => none
      | some cached =>
        if env.now + TOKEN_EXPIRY_BUFFER < cached.expiresAt then some cached.token else none
  match cacheHit with
  | some token => (.ok token, st, [])
  | none =>
    let detected : Except ApiErr Nat × AuthState × List AuthCall :=
      match installationId.orElse (fun _ => st.installationId) with
      | some target => (.ok target, st, [])
      | none => autoDetectInstallationId env st (ownerRepo.map (·.1)) (ownerRepo.map (·.2))
    match detected with
    | (.error e, st1, t1) => (.error e, st1, t1)
    | (.ok target, st1, t1) =>
      match env.mint target with
      | .error e =>
        (.error (.other ("Failed to authenticate GitHub App: " ++ errMessage e)), st1,
         t1 ++ [.mintToken target])
      | .ok (token, expiresAt) =>
        let st2 :=
          match cacheKey with
          | some key => { st1 with tokenCache := (key, ⟨token, expiresAt⟩) :: st1.tokenCache }
          | none => st1
        (.ok token, st2, t1 ++ [.mintToken target])

/-- Recognizes branch-creation calls in a trace. -/
def isCreateRefCall : ApiCall → Bool
  | .createRef .. => true
  | _ => false

/-- Recognizes pull-request-creation calls in a trace. -/
def isCreatePRCall : ApiCall → Bool
  | .createPR .. => true
  | _ => false

/-- Recognizes file-commit calls in a trace. -/
def isCommitFileCall : ApiCall → Bool
  | .commitFile .. => true
  | _ => false

/-- Recognizes existing-file SHA-lookup calls in a trace. -/
def isGetContentCall : ApiCall → Bool
  | .getContent .. => true
  | _ => false

/-- Recognizes commit-status calls in a trace. -/
def isStatusCall : ApiCall → Bool
  | .createCommitStatus .. => true
  | _ => false

/-- Holds when a trace entry is a commit-status call whose description
contains the text `skipped`. -/
def isSkippedStatusCall : ApiCall → Bool
  | .createCommitStatus _ _ _ _ description _ _ => strContains description "skipped"
  | _ => false

/-- The external calls `createFilesFromAPIResponse` issues for one
artifact on its non-aborting path (SHA lookup when the artifact claims
existence, then the single commit). -/
def perFileCalls (env : Env) (owner repo branchName : String) (prNumber : Nat)
    (f : Artifact) : List ApiCall :=
  let shaOpt : Option String :=
    if f.fileExists then
      match env.contentSha f.path with
      | .ok s => some s
      | .error _ => none
    else none
  let message := match shaOpt with
    | some _ => commitMessage "Update" f.type prNumber
    | none => commitMessage "Add" f.type prNumber
  (if f.fileExists then [.getContent owner repo f.path branchName] else []) ++
    [.commitFile owner repo f.path shaOpt message branchName]

/-- A concrete all-succeeding environment used by the witnesses. -/
def defaultEnv : Env :=
  { hasAppId := true
    nowMillis := 1700000000000
    nowISO := "2023-11-14T22:13:20.000Z"
    listFilesResult := .ok []
    pullGet := .ok { headSha := "0123456789abcdef", baseRef := "main", headRef := "feature" }
    analysisResult := .ok { analysisId := "a1", filesToCreate := [], timestamp := "t0" }
    baseRefSha := fun _ => .ok "basesha1234"
    createRefResult := .ok ()
    contentSha := fun _ => .error .notFound
    commitResult := fun _ => .ok ()
    createPRResult := .ok { number := 99, htmlUrl := "https://github.com/octo/demo/pull/99", draft := true }
    createCommentResult := .ok ()
    updateCommentResult := .ok ()
    statusResult := .ok () }

/-- The created-PR record `defaultEnv` answers with. -/
def cprW : CreatedPR :=
  { number := 99, htmlUrl := "https://github.com/octo/demo/pull/99", draft := true }

/-- A concrete PR-opened delivery whose head branch is auto-generated. -/
def autoPRRequest : WebhookRequest :=
  { eventType := "pull_request"
    action := "opened"
    pr := { number := 43, title := "generated", htmlUrl := "https://github.com/octo/demo/pull/43",
            headRef := "auto-analysis-pr-42-1699999999999", baseRef := "feature",
            createdAt := "2023-11-14", draft := true }
    comment := { id := 1, body := "" }
    issue := { number := 43, title := "generated", htmlUrl := "https://github.com/octo/demo/issues/43",
               userLogin := "dev", createdAt := "2023-11-14", hasPullRequest := true }
    repo := { fullName := "octo/demo" }
    sender := { login := "covlant-bot" } }

/-- A concrete comment body with both checkboxes checked. -/
def bothCheckedBody : String :=
  "- [x] **Analyze and create new PR**\n- [x] **Analyze and add to comments**"

/-- A concrete issue payload used by the witnesses. -/
def issueW : IssueData :=
  { number := 7, title := "demo", htmlUrl := "https://github.com/octo/demo/issues/7",
    userLogin := "dev", createdAt := "2023-11-14", hasPullRequest := true }

/-- A concrete prDetails record used by the witnesses. -/
def prDetailsW : PrDetails :=
  { owner := "octo", repo := "demo", commitSha := "0123456789abcdef",
    baseBranch := "main", headBranch := "feature" }

/-- A concrete issueData record used by the witnesses. -/
def issueInputW : IssueInput :=
  { title := "demo", userLogin := "dev", repoFullName := "octo/demo", createdAt := "2023-11-14" }

/-- A concrete 150-character status description used by the witnesses. -/
def longDesc : String := String.mk (List.replicate 150 'x')

/-- A concrete artifact claiming existence, used by the witnesses. -/
def artifactW : Artifact := { path := "a/b.md", content := "x", type := "doc", fileExists := true }

/-- A concrete single-artifact analysis response used by the witnesses. -/
def apiOneFile : AnalysisResponse :=
  { analysisId := "a1", filesToCreate := [artifactW], timestamp := "t0" }

/-- `defaultEnv` with the collaborator returning one artifact. -/
def oneFileEnv : Env :=
  { defaultEnv with analysisResult := .ok apiOneFile }

/-- A concrete prData record with an ordinary head branch. -/
def prDataW : PrData :=
  { number := 42, title := "demo", url := "https://github.com/octo/demo/pull/42",
    author := "dev", repository := "octo/demo", createdAt := "2023-11-14",
    baseBranch := "main", headBranch := "feature" }

/-- A concrete authentication environment used by the witnesses. -/
def defaultAuthEnv : AuthEnv :=
  { now := 1700000000000
    installations := .ok [{ id := 5, accountLogin := "Octo" }, { id := 6, accountLogin := "other" }]
    mint := fun iid => .ok ("tok-" ++ toString iid, 1700003600000)
    probeMint := fun _ => .ok "probe-tok"
    repoAccess := fun iid _ _ => iid == 5 }

/-- An authentication state with empty caches. -/
def emptyAuthState : AuthState :=
  { tokenCache := [], repoInstallationCache := [], installationId := none }

/-- A concrete authentication state with one cached token. -/
def cachedAuthState : AuthState :=
  { tokenCache := [("token/octo/demo", { token := "cached-tok", expiresAt := 1700003600000 })]
    repoInstallationCache := []
    installationId := some 5 }

example : strStartsWith "auto-analysis-pr-42-1699999999999" "auto-analysis-pr-" = true := by decide
example : strStartsWith "feature/x" "auto-analysis-pr-" = false := by decide
example : strContains "ab - [x] **y** cd" "- [x] **y**" = true := by decide
example : parseGitHubUrl "https://github.com/octo/repo/pull/7" = some ("octo", "repo") := by decide
example : prNumberOfUrl "https://github.com/octo/repo/pull/123" = some 123 := by decide
example : jsReplaceFirst "https://github.com/o/r/issues/5" "/issues/" "/pull/" =
    "https://github.com/o/r/pull/5" := by decide
example : lastDotSegment "a/b.test.js" = "js" := by decide
example : strToLower "OctoCat" = "octocat" := by decide

theorem listStarts_append_self (p t : List Char) : listStarts p (p ++ t) = true := by
  induction p with
  | nil => rfl
  | cons c cs ih => simp [listStarts, ih]

theorem splitFirst_append_isSome (pat xs ys : List Char) (h : pat ≠ []) :
    (splitFirst pat (xs ++ pat ++ ys)).isSome = true := by
  induction xs with
  | nil =>
    cases pat with
    | nil => exact absurd rfl h
    | cons q qs =>
      have hs : listStarts (q :: qs) (q :: qs ++ ys) = true := listStarts_append_self (q :: qs) ys
      simp only [List.nil_append, List.cons_append] at hs ⊢
      simp [splitFirst, hs]
  | cons x xs ih =>
    simp only [List.cons_append, List.append_assoc] at ih ⊢
    cases hst : listStarts pat (x :: (xs ++ (pat ++ ys))) with
    | true => simp [splitFirst, hst]
    | false =>
      cases hsp : splitFirst pat (xs ++ (pat ++ ys)) with
      | none => rw [hsp] at ih; simp at ih
      | some v =>
        obtain ⟨a, b⟩ := v
        simp [splitFirst, hst, hsp]

theorem strContains_of_parts (s pre mid suf : String)
    (h : s.data = pre.data ++ mid.data ++ suf.data) (hm : mid.data ≠ []) :
    strContains s mid = true := by
  unfold strContains
  rw [h]
  exact splitFirst_append_isSome mid.data pre.data suf.data hm

/-- The trace and result of a fully succeeding run of the per-artifact
commit loop: every artifact contributes its SHA lookup (when claimed to
exist) followed by its single commit, and the created paths come back in
order. -/
theorem createFiles_ok (env : Env) (owner repo branchName : String) (prNumber : Nat)
    (files : List Artifact)
    (Hc : ∀ p, env.commitResult p = .ok ())
    (Hs : ∀ p m, env.contentSha p ≠ .error (.other m)) :
    createFilesFromAPIResponse env owner repo branchName prNumber files =
      (.ok (files.map (·.path)), files.flatMap (perFileCalls env owner repo branchName prNumber)) := by
  induction files with
  | nil => rfl
  | cons f rest ih =>
    cases hfe : f.fileExists with
    | false =>
      simp [createFilesFromAPIResponse, hfe, Hc, ih, perFileCalls, Except.map]
    | true =>
      cases hcs : env.contentSha f.path with
      | ok s =>
        simp [createFilesFromAPIResponse, getFileSHA, hfe, hcs, Hc, ih, perFileCalls, Except.map]
      | error e =>
        cases e with
        | notFound =>
          simp [createFilesFromAPIResponse, getFileSHA, hfe, hcs, Hc, ih, perFileCalls, Except.map]
        | other m => exact absurd hcs (Hs f.path m)

/-- C1: a PR-opened webhook delivery whose pull-request head branch
starts with `auto-analysis-pr-` is answered with the skip acknowledgment
(`skipped` true) and an empty call trace: no file fetch, comment or
status call is issued before returning. -/
theorem pr_opened_auto_branch_short_circuits (env : Env) (req : WebhookRequest)
    (h1 : req.eventType = "pull_request") (h2 : req.action = "opened")
    (h3 : strStartsWith req.pr.headRef "auto-analysis-pr-" = true) :
    webhookPost env req =
      ({ success := true, message := "Auto-generated PR skipped to prevent loop",
         skipped := true }, []) := by
  simp [webhookPost, h1, h2, h3]

/-- Witness for C1 at the concrete head branch
`auto-analysis-pr-42-1699999999999`. -/
theorem pr_opened_auto_branch_short_circuits_witness :
    strStartsWith autoPRRequest.pr.headRef "auto-analysis-pr-" = true ∧
    webhookPost defaultEnv autoPRRequest =
      ({ success := true, message := "Auto-generated PR skipped to prevent loop",
         skipped := true }, []) :=
  ⟨by decide,
   pr_opened_auto_branch_short_circuits defaultEnv autoPRRequest rfl rfl (by decide)⟩

/-- C10: the orchestrator re-checks the loop-prevention prefix on
`prData.headBranch` and throws before calling the analysis collaborator
or creating any branch, file or pull request (empty call trace). -/
theorem orchestrator_auto_branch_guard (env : Env) (prData : PrData)
    (fileChanges : List ChangedFile)
    (h : strStartsWith prData.headBranch "auto-analysis-pr-" = true) :
    processPRAndCreateAnalysis env prData fileChanges =
      (.error (.other "Attempted to process auto-generated PR - this should have been caught earlier!"),
       []) := by
  simp [processPRAndCreateAnalysis, h]

/-- Witness for C10 at a concrete auto-generated head branch. -/
theorem orchestrator_auto_branch_guard_witness :
    strStartsWith "auto-analysis-pr-42-1699999999999" "auto-analysis-pr-" = true ∧
    processPRAndCreateAnalysis defaultEnv
      { number := 50, title := "t", url := "https://github.com/octo/demo/pull/50",
        author := "dev", repository := "octo/demo", createdAt := "2023-11-14",
        baseBranch := "main", headBranch := "auto-analysis-pr-42-1699999999999" } [] =
      (.error (.other "Attempted to process auto-generated PR - this should have been caught earlier!"),
       []) :=
  ⟨by decide,
   orchestrator_auto_branch_guard defaultEnv
     { number := 50, title := "t", url := "https://github.com/octo/demo/pull/50",
       author := "dev", repository := "octo/demo", createdAt := "2023-11-14",
       baseBranch := "main", headBranch := "auto-analysis-pr-42-1699999999999" } [] (by decide)⟩

/-- C5: checkbox detection returns `create_pr` exactly when only the
create-PR box is checked, `add_comments` exactly when only the
add-comments box is checked, and no selection when both or neither are
checked; with no selection the comment-edited handler acknowledges
without any state transition or external call. -/
theorem checkbox_detection_and_noop (env : Env) (comment : CommentData) (issue : IssueData)
    (repo : RepoData) (body : String) :
    (strContains body "- [x] **Analyze and create new PR**" = true →
     strContains body "- [x] **Analyze and add to comments**" = false →
     detectCheckboxChoice body = some "create_pr") ∧
    (strContains body "- [x] **Analyze and create new PR**" = false →
     strContains body "- [x] **Analyze and add to comments**" = true →
     detectCheckboxChoice body = some "add_comments") ∧
    (strContains body "- [x] **Analyze and create new PR**" =
       strContains body "- [x] **Analyze and add to comments**" →
     detectCheckboxChoice body = none) ∧
    (detectCheckboxChoice comment.body = none →
     handleCommentEdited env comment issue repo =
       ({ success := true, message := "No valid choice detected", choice := some "none" }, [])) := by
  refine ⟨?_, ?_, ?_, ?_⟩
  · intro h1 h2
    simp [detectCheckboxChoice, h1, h2]
  · intro h1 h2
    simp [detectCheckboxChoice, h1, h2]
  · intro h
    cases hc : strContains body "- [x] **Analyze and create new PR**" with
    | true => rw [hc] at h; simp [detectCheckboxChoice, hc, ← h]
    | false => rw [hc] at h; simp [detectCheckboxChoice, hc, ← h]
  · intro h
    simp [handleCommentEdited, h]

/-- Witness for C5 at concrete comment bodies (single checked box, both
boxes checked, no handler activity on the both-checked body). -/
theorem checkbox_detection_and_noop_witness :
    detectCheckboxChoice "pick one:\n- [x] **Analyze and create new PR**\n- [ ] **Analyze and add to comments**" =
      some "create_pr" ∧
    detectCheckboxChoice bothCheckedBody = none ∧
    handleCommentEdited defaultEnv { id := 9, body := bothCheckedBody } issueW { fullName := "octo/demo" } =
      ({ success := true, message := "No valid choice detected", choice := some "none" }, []) :=
  ⟨(checkbox_detection_and_noop defaultEnv { id := 9, body := bothCheckedBody } issueW
      { fullName := "octo/demo" }
      "pick one:\n- [x] **Analyze and create new PR**\n- [ ] **Analyze and add to comments**").1
      (by decide) (by decide),
   (checkbox_detection_and_noop defaultEnv { id := 9, body := bothCheckedBody } issueW
      { fullName := "octo/demo" } bothCheckedBody).2.2.1 (by decide),
   (checkbox_detection_and_noop defaultEnv { id := 9, body := bothCheckedBody } issueW
      { fullName := "octo/demo" } bothCheckedBody).2.2.2 (by decide)⟩

/-- C9: every status submission truncates an over-140-character
description to its first 137 characters plus `...` (exact final length
140) before the commit-status call, and submits a description of at most
140 characters unchanged. -/
theorem status_description_truncation (env : Env) (repoUrl sha state description context : String)
    (targetUrl : Option String) (owner repo : String)
    (hparse : parseGitHubUrl repoUrl = some (owner, repo))
    (hsha : ¬ sha.length < 7)
    (hstate : (["pending", "success", "error", "failure"].contains state) = true) :
    (setStatus env repoUrl sha state description context targetUrl).2 =
      [.createCommitStatus owner repo sha state (truncateDescription description) context targetUrl] ∧
    (description.length > 140 →
      truncateDescription description = String.mk (description.data.take 137) ++ "..." ∧
      (truncateDescription description).length = 140) ∧
    (description.length ≤ 140 → truncateDescription description = description) := by
  refine ⟨?_, ?_, ?_⟩
  · have hst : state = "pending" ∨ state = "success" ∨ state = "error" ∨ state = "failure" := by
      simpa using hstate
    have hcond : ¬(¬state = "pending" ∧ ¬state = "success" ∧ ¬state = "error" ∧ ¬state = "failure") := by
      tauto
    cases hres : env.statusResult <;> simp [setStatus, hparse, hsha, hstate, hres, hcond]
  · intro h140
    have hd : truncateDescription description = String.mk (description.data.take 137) ++ "..." := by
      simp [truncateDescription, h140]
    refine ⟨hd, ?_⟩
    rw [hd]
    show (String.mk (description.data.take 137) ++ "...").data.length = 140
    rw [String.data_append, List.length_append, List.length_take]
    have hl : 140 < description.data.length := h140
    have h3 : "...".data.length = 3 := rfl
    omega
  · intro hle
    unfold truncateDescription
    rw [if_neg (by omega)]

/-- Witness for C9 at a concrete 150-character description. -/
theorem status_description_truncation_witness :
    (setStatus defaultEnv "https://github.com/octo/demo" "0123456789abcdef" "success" longDesc
        "covlant-sentinel-app" none).2 =
      [.createCommitStatus "octo" "demo" "0123456789abcdef" "success"
        (truncateDescription longDesc) "covlant-sentinel-app" none] ∧
    truncateDescription longDesc = String.mk (longDesc.data.take 137) ++ "..." ∧
    (truncateDescription longDesc).length = 140 :=
  have h := status_description_truncation defaultEnv "https://github.com/octo/demo"
    "0123456789abcdef" "success" longDesc "covlant-sentinel-app" none "octo" "demo"
    (by decide) (by decide) (by decide)
  have h140 : longDesc.length > 140 := by
    show 140 < (List.replicate 150 'x').length
    simp
  ⟨h.1, (h.2.1 h140).1, (h.2.1 h140).2⟩

theorem filter_getContent_flatMap (env : Env) (owner repo branchName : String) (prNumber : Nat)
    (files : List Artifact) :
    (files.flatMap (perFileCalls env owner repo branchName prNumber)).filter isGetContentCall =
      (files.filter (·.fileExists)).map (fun f => ApiCall.getContent owner repo f.path branchName) := by
  induction files with
  | nil => rfl
  | cons f rest ih =>
    cases hfe : f.fileExists <;>
      simp [perFileCalls, hfe, List.filter_append, ih, isGetContentCall]

theorem filter_createRef_flatMap (env : Env) (owner repo branchName : String) (prNumber : Nat)
    (files : List Artifact) :
    (files.flatMap (perFileCalls env owner repo branchName prNumber)).filter isCreateRefCall = [] := by
  induction files with
  | nil => rfl
  | cons f rest ih =>
    cases hfe : f.fileExists <;>
      simp [perFileCalls, hfe, List.filter_append, ih, isCreateRefCall]

theorem filter_createPR_flatMap (env : Env) (owner repo branchName : String) (prNumber : Nat)
    (files : List Artifact) :
    (files.flatMap (perFileCalls env owner repo branchName prNumber)).filter isCreatePRCall = [] := by
  induction files with
  | nil => rfl
  | cons f rest ih =>
    cases hfe : f.fileExists <;>
      simp [perFileCalls, hfe, List.filter_append, ih, isCreatePRCall]

/-- C7: during the commit loop the existing-file SHA lookup happens
exactly for the artifacts claiming `fileExists`, and an artifact whose
claimed file turns out missing (404 lookup) is committed with create
semantics (no `sha` field, an `Add` commit message) without raising an
error. -/
theorem sha_lookup_iff_fileExists (env : Env) (owner repo branchName : String) (prNumber : Nat)
    (files : List Artifact)
    (Hc : ∀ p, env.commitResult p = .ok ())
    (Hs : ∀ p m, env.contentSha p ≠ .error (.other m)) :
    (createFilesFromAPIResponse env owner repo branchName prNumber files).1 =
      .ok (files.map (·.path)) ∧
    (createFilesFromAPIResponse env owner repo branchName prNumber files).2.filter isGetContentCall =
      (files.filter (·.fileExists)).map (fun f => ApiCall.getContent owner repo f.path branchName) ∧
    (∀ f ∈ files, f.fileExists = true → env.contentSha f.path = .error .notFound →
      ApiCall.commitFile owner repo f.path none (commitMessage "Add" f.type prNumber) branchName ∈
        (createFilesFromAPIResponse env owner repo branchName prNumber files).2) := by
  have key := createFiles_ok env owner repo branchName prNumber files Hc Hs
  refine ⟨by rw [key], ?_, ?_⟩
  · rw [key]
    exact filter_getContent_flatMap env owner repo branchName prNumber files
  · intro f hf hfe hcs
    rw [key]
    refine List.mem_flatMap.mpr ⟨f, hf, ?_⟩
    simp [perFileCalls, hfe, hcs]

/-- Witness for C7 at a concrete artifact claiming existence whose SHA
lookup 404s. -/
theorem sha_lookup_iff_fileExists_witness :
    (createFilesFromAPIResponse defaultEnv "octo" "demo" "br" 7 [artifactW]).1 = .ok ["a/b.md"] ∧
    (createFilesFromAPIResponse defaultEnv "octo" "demo" "br" 7 [artifactW]).2.filter isGetContentCall =
      [.getContent "octo" "demo" "a/b.md" "br"] ∧
    ApiCall.commitFile "octo" "demo" "a/b.md" none (commitMessage "Add" "doc" 7) "br" ∈
      (createFilesFromAPIResponse defaultEnv "octo" "demo" "br" 7 [artifactW]).2 := by
  have h := sha_lookup_iff_fileExists defaultEnv "octo" "demo" "br" 7 [artifactW]
    (fun _ => rfl) (fun p m => by simp [defaultEnv])
  exact ⟨h.1, h.2.1, h.2.2 artifactW (by decide) rfl rfl⟩

/-- C6: with at least one artifact and all calls succeeding, the
create-PR workflow creates exactly one remote branch, named with the
`auto-analysis-pr-` prefix, the PR number and the timestamp, based on the
original PR head branch, and opens exactly one pull request, as a draft,
whose base is the original PR head branch and whose title and body
reference the original PR number. -/
theorem create_pr_one_branch_one_draft (env : Env) (prData : PrData)
    (fileChanges : List ChangedFile) (owner repo baseSha : String)
    (api : AnalysisResponse) (cpr : CreatedPR)
    (hguard : strStartsWith prData.headBranch "auto-analysis-pr-" = false)
    (hparse : parseGitHubUrl prData.url = some (owner, repo))
    (hanalysis : env.analysisResult = .ok api)
    (hnonempty : api.filesToCreate ≠ [])
    (hbase : env.baseRefSha prData.headBranch = .ok baseSha)
    (hcreateRef : env.createRefResult = .ok ())
    (Hc : ∀ p, env.commitResult p = .ok ())
    (Hs : ∀ p m, env.contentSha p ≠ .error (.other m))
    (hpr : env.createPRResult = .ok cpr) :
    (processPRAndCreateAnalysis env prData fileChanges).2.filter isCreateRefCall =
      [.createRef owner repo
        ("auto-analysis-pr-" ++ toString prData.number ++ "-" ++ toString env.nowMillis) baseSha] ∧
    (processPRAndCreateAnalysis env prData fileChanges).2.filter isCreatePRCall =
      [.createPR owner repo
        ("auto-analysis-pr-" ++ toString prData.number ++ "-" ++ toString env.nowMillis)
        prData.headBranch (analysisPRTitle prData)
        (analysisPRBody env prData
          ("auto-analysis-pr-" ++ toString prData.number ++ "-" ++ toString env.nowMillis)
          prData.headBranch true) true] ∧
    strContains (analysisPRTitle prData) ("PR #" ++ toString prData.number) = true ∧
    strContains (analysisPRBody env prData
        ("auto-analysis-pr-" ++ toString prData.number ++ "-" ++ toString env.nowMillis)
        prData.headBranch true) ("PR #" ++ toString prData.number) = true ∧
    (processPRAndCreateAnalysis env prData fileChanges).1 =
      .ok { success := true,
            newPR := some { number := cpr.number, url := cpr.htmlUrl,
                            branch := "auto-analysis-pr-" ++ toString prData.number ++ "-" ++
                              toString env.nowMillis,
                            isDraft := cpr.draft },
            createdFiles := api.filesToCreate.map (·.path),
            analysisId := api.analysisId,
            filesCount := api.filesToCreate.length } := by
  have hempty : api.filesToCreate.isEmpty = false := by
    cases hl : api.filesToCreate with
    | nil => exact absurd hl hnonempty
    | cons a l => rfl
  have hfiles := createFiles_ok env owner repo
    ("auto-analysis-pr-" ++ toString prData.number ++ "-" ++ toString env.nowMillis)
    prData.number api.filesToCreate Hc Hs
  have hmid : ("PR #" ++ toString prData.number).data ≠ [] := by
    have h4 : "PR #".data = ['P', 'R', ' ', '#'] := rfl
    rw [String.data_append, h4]
    simp
  refine ⟨?_, ?_, ?_, ?_, ?_⟩
  · simp [processPRAndCreateAnalysis, hguard, callAnalysisAPI, hanalysis, hempty,
          createRemoteBranch, hparse, hbase, hcreateRef, hfiles, createPullRequest, hpr,
          List.filter_append, filter_createRef_flatMap, isCreateRefCall]
  · simp [processPRAndCreateAnalysis, hguard, callAnalysisAPI, hanalysis, hempty,
          createRemoteBranch, hparse, hbase, hcreateRef, hfiles, createPullRequest, hpr,
          List.filter_append, filter_createPR_flatMap, isCreatePRCall]
  · apply strContains_of_parts _ "Auto-generated Covlant-app analysis for "
      ("PR #" ++ toString prData.number) (": " ++ prData.title) ?_ hmid
    simp only [analysisPRTitle, String.data_append, List.append_assoc]
    rfl
  · apply strContains_of_parts _
      "## Automated PR Analysis (Draft)\n\nThis PR was automatically generated in response to "
      ("PR #" ++ toString prData.number)
      (".\n\n### Original PR Details\n- **Base Branch**: " ++ prData.headBranch ++
        "\n- **Head Branch**: " ++
        ("auto-analysis-pr-" ++ toString prData.number ++ "-" ++ toString env.nowMillis) ++
        "\n\n---\n*Auto-generated by fastify-github-webhook at " ++ env.nowISO ++ "*") ?_ hmid
    simp only [analysisPRBody, if_pos, String.data_append, List.append_assoc]
    rfl
  · simp [processPRAndCreateAnalysis, hguard, callAnalysisAPI, hanalysis, hempty,
          createRemoteBranch, hparse, hbase, hcreateRef, hfiles, createPullRequest, hpr]

/-- Witness for C6 at a concrete single-artifact run. -/
theorem create_pr_one_branch_one_draft_witness :
    (processPRAndCreateAnalysis oneFileEnv prDataW []).2.filter isCreateRefCall =
      [.createRef "octo" "demo" "auto-analysis-pr-42-1700000000000" "basesha1234"] ∧
    (processPRAndCreateAnalysis oneFileEnv prDataW []).2.filter isCreatePRCall =
      [.createPR "octo" "demo" "auto-analysis-pr-42-1700000000000" "feature"
        (analysisPRTitle prDataW)
        (analysisPRBody oneFileEnv prDataW "auto-analysis-pr-42-1700000000000" "feature" true) true] ∧
    strContains (analysisPRTitle prDataW) ("PR #" ++ toString prDataW.number) = true ∧
    (processPRAndCreateAnalysis oneFileEnv prDataW []).1 =
      .ok { success := true,
            newPR := some { number := 99, url := "https://github.com/octo/demo/pull/99",
                            branch := "auto-analysis-pr-42-1700000000000", isDraft := true },
            createdFiles := ["a/b.md"], analysisId := "a1", filesCount := 1 } := by
  have h := create_pr_one_branch_one_draft oneFileEnv prDataW [] "octo" "demo" "basesha1234"
    apiOneFile cprW (by decide) (by decide) rfl (by decide) rfl rfl
    (fun _ => rfl) (fun p m => by simp [oneFileEnv, defaultEnv]) rfl
  exact ⟨h.1, h.2.1, h.2.2.1, h.2.2.2.2⟩

/-- C2 (amended): a create-PR run whose analysis collaborator returns no
artifacts completes successfully with `skipped` true, makes zero
branch-create, file-commit and PR-create calls, and sets exactly one
commit status: success with the standard completion description
(`covlant-app analysis complete for PR #N`), not a skipped-specific
description. -/
theorem empty_analysis_skips (env : Env) (prUrl : String) (prNumber : Nat)
    (fileChanges : List ChangedFile) (prDetails : PrDetails) (issueData : IssueInput)
    (owner repo : String) (api : AnalysisResponse)
    (hparse : parseGitHubUrl prUrl = some (owner, repo))
    (hanalysis : env.analysisResult = .ok api)
    (hempty : api.filesToCreate = [])
    (hguard : strStartsWith prDetails.headBranch "auto-analysis-pr-" = false)
    (hsha : ¬ prDetails.commitSha.length < 7)
    (hstatus : env.statusResult = .ok ()) :
    processCreatePR env prUrl prNumber fileChanges prDetails issueData =
      (.ok none,
       [.analysisAPI,
        .createCommitStatus owner repo prDetails.commitSha "success"
          (truncateDescription ("covlant-app analysis complete for PR #" ++ toString prNumber))
          "covlant-sentinel-app" none]) ∧
    (processPRAndCreateAnalysis env
        { number := prNumber, title := issueData.title, url := prUrl,
          author := issueData.userLogin, repository := issueData.repoFullName,
          createdAt := issueData.createdAt,
          baseBranch := prDetails.baseBranch, headBranch := prDetails.headBranch }
        fileChanges).1 =
      .ok { success := true, skipped := true, reason := some "No files to create",
            analysisId := api.analysisId, filesCount := 0 } := by
  have hw : processPRAndCreateAnalysis env
      { number := prNumber, title := issueData.title, url := prUrl,
        author := issueData.userLogin, repository := issueData.repoFullName,
        createdAt := issueData.createdAt,
        baseBranch := prDetails.baseBranch, headBranch := prDetails.headBranch }
      fileChanges =
      (.ok { success := true, skipped := true, reason := some "No files to create",
             analysisId := api.analysisId, filesCount := 0 }, [.analysisAPI]) := by
    simp [processPRAndCreateAnalysis, hguard, callAnalysisAPI, hanalysis, hempty]
  refine ⟨?_, by rw [hw]⟩
  simp [processCreatePR, hw, setComplete, setStatus, hparse, hsha, hstatus]

/-- Counterexample to C2 as stated: at a concrete zero-artifact run the
only commit-status call carries the plain completion description; no
status with a skipped description is submitted. -/
theorem empty_analysis_skips_counterexample :
    (processCreatePR defaultEnv "https://github.com/octo/demo/pull/42" 42 [] prDetailsW
        issueInputW).2 =
      [.analysisAPI,
       .createCommitStatus "octo" "demo" "0123456789abcdef" "success"
         "covlant-app analysis complete for PR #42" "covlant-sentinel-app" none] ∧
    (∀ c ∈ (processCreatePR defaultEnv "https://github.com/octo/demo/pull/42" 42 [] prDetailsW
        issueInputW).2, isSkippedStatusCall c = false) := by
  exact ⟨by decide, by decide⟩

/-- Witness for the amended C2 at a concrete zero-artifact run. -/
theorem empty_analysis_skips_witness :
    processCreatePR defaultEnv "https://github.com/octo/demo/pull/42" 42 [] prDetailsW
        issueInputW =
      (.ok none,
       [.analysisAPI,
        .createCommitStatus "octo" "demo" "0123456789abcdef" "success"
          (truncateDescription ("covlant-app analysis complete for PR #" ++ toString 42))
          "covlant-sentinel-app" none]) ∧
    (processPRAndCreateAnalysis defaultEnv
        { number := 42, title := issueInputW.title, url := "https://github.com/octo/demo/pull/42",
          author := issueInputW.userLogin, repository := issueInputW.repoFullName,
          createdAt := issueInputW.createdAt,
          baseBranch := prDetailsW.baseBranch, headBranch := prDetailsW.headBranch } []).1 =
      .ok { success := true, skipped := true, reason := some "No files to create",
            analysisId := "a1", filesCount := 0 } := by
  have h := empty_analysis_skips defaultEnv "https://github.com/octo/demo/pull/42" 42 []
    prDetailsW issueInputW "octo" "demo" { analysisId := "a1", filesToCreate := [], timestamp := "t0" }
    (by decide) rfl rfl (by decide) (by decide) rfl
  exact ⟨h.1, h.2⟩

/-- C8 (amended): a failing per-file commit aborts the remaining commit
loop immediately and propagates the error with no retry, for both create
and update semantics; a failure of the changed-files listing inside
`fetchPRFileChanges`, however, is caught and replaced by an empty file
list rather than propagating. -/
theorem failure_propagation (env : Env) (owner repo branchName : String) (prNumber : Nat) :
    (∀ f rest e, f.fileExists = false → env.commitResult f.path = .error e →
      createFilesFromAPIResponse env owner repo branchName prNumber (f :: rest) =
        (.error e,
         [.commitFile owner repo f.path none (commitMessage "Add" f.type prNumber) branchName])) ∧
    (∀ f rest e s, f.fileExists = true → env.contentSha f.path = .ok s →
      env.commitResult f.path = .error e →
      createFilesFromAPIResponse env owner repo branchName prNumber (f :: rest) =
        (.error e,
         [.getContent owner repo f.path branchName,
          .commitFile owner repo f.path (some s) (commitMessage "Update" f.type prNumber)
            branchName])) ∧
    (∀ prUrl o r n e, parseGitHubUrl prUrl = some (o, r) → prNumberOfUrl prUrl = some n →
      env.listFilesResult = .error e →
      fetchPRFileChanges env prUrl = ([], [.listFiles o r n])) := by
  refine ⟨?_, ?_, ?_⟩
  · intro f rest e hfe hc
    simp [createFilesFromAPIResponse, hfe, hc]
  · intro f rest e s hfe hcs hc
    simp [createFilesFromAPIResponse, getFileSHA, hfe, hcs, hc]
  · intro prUrl o r n e hp hn he
    simp [fetchPRFileChanges, hp, hn, he]

/-- Counterexample to C8 as stated: with the changed-files listing call
failing, `fetchPRFileChanges` returns normally with an empty list — a
silently substituted default — instead of aborting the enclosing
operation. -/
theorem failure_propagation_counterexample :
    ({ defaultEnv with listFilesResult := .error (.other "boom") } : Env).listFilesResult =
      .error (.other "boom") ∧
    fetchPRFileChanges { defaultEnv with listFilesResult := .error (.other "boom") }
      "https://github.com/octo/demo/pull/7" = ([], [.listFiles "octo" "demo" 7]) := by
  exact ⟨rfl, by decide⟩

/-- Witness for the amended C8 at concrete failing calls. -/
theorem failure_propagation_witness :
    createFilesFromAPIResponse
        { defaultEnv with commitResult := fun _ => .error (.other "boom") }
        "octo" "demo" "br" 7 [{ path := "p.md", content := "c", type := "doc", fileExists := false },
          artifactW] =
      (.error (.other "boom"),
       [.commitFile "octo" "demo" "p.md" none (commitMessage "Add" "doc" 7) "br"]) ∧
    fetchPRFileChanges { defaultEnv with listFilesResult := .error (.other "x") }
      "https://github.com/octo/demo/pull/7" = ([], [.listFiles "octo" "demo" 7]) := by
  have h1 := failure_propagation
    { defaultEnv with commitResult := fun _ => .error (.other "boom") } "octo" "demo" "br" 7
  have h2 := failure_propagation
    { defaultEnv with listFilesResult := .error (.other "x") } "octo" "demo" "br" 7
  exact ⟨h1.1 { path := "p.md", content := "c", type := "doc", fileExists := false } [artifactW]
      (.other "boom") rfl rfl,
    h2.2.2 "https://github.com/octo/demo/pull/7" "octo" "demo" 7 (.other "x")
      (by decide) (by decide) rfl⟩

/-- C3: under the lowercased repository key, a cached token still more
than five minutes from expiry is returned unchanged with no external
call at all (in particular no token mint); on a cache miss, and likewise
on near-expiry, a fresh token is minted, stored under the key as its
token/expiry pair, and returned. -/
theorem token_cache_behavior (env : AuthEnv) (st : AuthState) (url owner repo : String)
    (hparse : parseGitHubUrl url = some (owner, repo)) :
    (∀ e, List.lookup (tokenCacheKey owner repo) st.tokenCache = some e →
      env.now + TOKEN_EXPIRY_BUFFER < e.expiresAt →
      getInstallationToken env st none (some url) = (.ok e.token, st, [])) ∧
    (∀ iid token exp, List.lookup (tokenCacheKey owner repo) st.tokenCache = none →
      st.installationId = some iid → env.mint iid = .ok (token, exp) →
      getInstallationToken env st none (some url) =
        (.ok token,
         { st with tokenCache := (tokenCacheKey owner repo, ⟨token, exp⟩) :: st.tokenCache },
         [.mintToken iid]) ∧
      List.lookup (tokenCacheKey owner repo)
        ((tokenCacheKey owner repo, (⟨token, exp⟩ : TokenCacheEntry)) :: st.tokenCache) =
        some ⟨token, exp⟩) ∧
    (∀ e iid token exp, List.lookup (tokenCacheKey owner repo) st.tokenCache = some e →
      ¬ env.now + TOKEN_EXPIRY_BUFFER < e.expiresAt →
      st.installationId = some iid → env.mint iid = .ok (token, exp) →
      getInstallationToken env st none (some url) =
        (.ok token,
         { st with tokenCache := (tokenCacheKey owner repo, ⟨token, exp⟩) :: st.tokenCache },
         [.mintToken iid])) := by
  refine ⟨?_, ?_, ?_⟩
  · intro e hlook hlt
    simp only [tokenCacheKey] at hlook
    simp [getInstallationToken, hparse, hlook, hlt, tokenCacheKey]
  · intro iid token exp hlook hiid hmint
    simp only [tokenCacheKey] at hlook
    refine ⟨?_, by simp [List.lookup]⟩
    simp [getInstallationToken, hparse, hlook, hiid, hmint, Option.orElse, tokenCacheKey]
  · intro e iid token exp hlook hge hiid hmint
    simp only [tokenCacheKey] at hlook
    simp [getInstallationToken, hparse, hlook, hge, hiid, hmint, Option.orElse, tokenCacheKey]

/-- Witness for C3: a cache hit inside the expiry window returns the
cached token with no call, and the same request against an empty cache
mints, stores and returns a fresh token. -/
theorem token_cache_behavior_witness :
    getInstallationToken defaultAuthEnv cachedAuthState none
      (some "https://github.com/octo/demo/pull/7") = (.ok "cached-tok", cachedAuthState, []) ∧
    getInstallationToken defaultAuthEnv { cachedAuthState with tokenCache := [] } none
      (some "https://github.com/octo/demo/pull/7") =
      (.ok "tok-5",
       { cachedAuthState with
         tokenCache := [("token/octo/demo", { token := "tok-5", expiresAt := 1700003600000 })] },
       [.mintToken 5]) := by
  have h1 := token_cache_behavior defaultAuthEnv cachedAuthState
    "https://github.com/octo/demo/pull/7" "octo" "demo" (by decide)
  have h2 := token_cache_behavior defaultAuthEnv { cachedAuthState with tokenCache := [] }
    "https://github.com/octo/demo/pull/7" "octo" "demo" (by decide)
  exact ⟨h1.1 { token := "cached-tok", expiresAt := 1700003600000 } (by decide) (by decide),
    (h2.2.1 5 "tok-5" 1700003600000 (by decide) rfl rfl).1⟩

theorem findInstallLoop_fst (env : AuthEnv) (owner repo : String) (st : AuthState)
    (insts : List Installation) :
    (findInstallLoop env owner repo st insts).1 =
      (match insts.find? (fun i => (strToLower i.accountLogin == strToLower owner) &&
          probeSucceeds env i owner repo) with
       | some i => Except.ok i.id
       | none => Except.error (.other (noInstallationMsg owner repo))) := by
  induction insts with
  | nil => rfl
  | cons i rest ih =>
    cases hm : (strToLower i.accountLogin == strToLower owner) with
    | false =>
      rcases hrec : findInstallLoop env owner repo st rest with ⟨r, st2, t⟩
      rw [hrec] at ih
      simp [findInstallLoop, hm, hrec, List.find?, ih]
    | true =>
      cases hp : env.probeMint i.id with
      | error e =>
        rcases hrec : findInstallLoop env owner repo st rest with ⟨r, st2, t⟩
        rw [hrec] at ih
        simp [findInstallLoop, hm, hp, hrec, List.find?, probeSucceeds, ih]
      | ok tok =>
        cases ha : env.repoAccess i.id owner repo with
        | false =>
          rcases hrec : findInstallLoop env owner repo st rest with ⟨r, st2, t⟩
          rw [hrec] at ih
          simp [findInstallLoop, hm, hp, ha, hrec, List.find?, probeSucceeds, ih]
        | true =>
          simp [findInstallLoop, hm, hp, ha, List.find?, probeSucceeds]

/-- C4: installation resolution returns the id of the first installation
whose account login matches the owner case-insensitively and whose
repository access probe succeeds; it throws the no-installation error
both when no login matches and when logins match but every probe
fails. -/
theorem installation_resolution (env : AuthEnv) (st : AuthState) (owner repo : String)
    (insts : List Installation) (hinsts : env.installations = .ok insts) :
    (findInstallationForRepo env st owner repo).1 =
      (match insts.find? (fun i => (strToLower i.accountLogin == strToLower owner) &&
          probeSucceeds env i owner repo) with
       | some i => Except.ok i.id
       | none => Except.error (.other (noInstallationMsg owner repo))) ∧
    ((∀ i ∈ insts, strToLower i.accountLogin ≠ strToLower owner) →
      (findInstallationForRepo env st owner repo).1 =
        .error (.other (noInstallationMsg owner repo))) ∧
    ((∀ i ∈ insts, strToLower i.accountLogin = strToLower owner →
        probeSucceeds env i owner repo = false) →
      (findInstallationForRepo env st owner repo).1 =
        .error (.other (noInstallationMsg owner repo))) := by
  have hfst : (findInstallationForRepo env st owner repo).1 =
      (findInstallLoop env owner repo st insts).1 := by
    rcases hloop : findInstallLoop env owner repo st insts with ⟨r, st2, t⟩
    simp [findInstallationForRepo, getInstallations, hinsts, hloop]
  refine ⟨by rw [hfst, findInstallLoop_fst], ?_, ?_⟩
  · intro h
    rw [hfst, findInstallLoop_fst]
    have hnone : insts.find? (fun i => (strToLower i.accountLogin == strToLower owner) &&
        probeSucceeds env i owner repo) = none := by
      refine List.find?_eq_none.mpr (fun i hi => ?_)
      simp [beq_eq_false_iff_ne.mpr (h i hi)]
    rw [hnone]
  · intro h
    rw [hfst, findInstallLoop_fst]
    have hnone : insts.find? (fun i => (strToLower i.accountLogin == strToLower owner) &&
        probeSucceeds env i owner repo) = none := by
      refine List.find?_eq_none.mpr (fun i hi => ?_)
      cases hbeq : (strToLower i.accountLogin == strToLower owner) with
      | false => simp [hbeq]
      | true => simp [hbeq, h i hi (by simpa using hbeq)]
    rw [hnone]

/-- Witness for C4: the first matching-and-probing installation wins at
a concrete fixture, and the two failure fixtures (no matching login;
matching login with failing probe) both produce the
no-installation-found error. -/
theorem installation_resolution_witness :
    (findInstallationForRepo defaultAuthEnv emptyAuthState "octo" "demo").1 = .ok 5 ∧
    (findInstallationForRepo defaultAuthEnv emptyAuthState "nobody" "demo").1 =
      .error (.other (noInstallationMsg "nobody" "demo")) ∧
    (findInstallationForRepo { defaultAuthEnv with repoAccess := fun _ _ _ => false }
        emptyAuthState "octo" "demo").1 =
      .error (.other (noInstallationMsg "octo" "demo")) := by
  have h1 := installation_resolution defaultAuthEnv emptyAuthState "octo" "demo"
    [{ id := 5, accountLogin := "Octo" }, { id := 6, accountLogin := "other" }] rfl
  have h2 := installation_resolution defaultAuthEnv emptyAuthState "nobody" "demo"
    [{ id := 5, accountLogin := "Octo" }, { id := 6, accountLogin := "other" }] rfl
  have h3 := installation_resolution { defaultAuthEnv with repoAccess := fun _ _ _ => false }
    emptyAuthState "octo" "demo"
    [{ id := 5, accountLogin := "Octo" }, { id := 6, accountLogin := "other" }] rfl
  refine ⟨?_, h2.2.1 (by decide), h3.2.2 (by decide)⟩
  rw [h1.1]
  rfl

end Covlant
